/-
  Verification development for the eox_nelp program-lookup pipeline.

  Shallow embedding of the pure/data-shaping parts of the repository:
    * eox_nelp/programs/api/v1/utils.py       (metadata accessor, assembler,
                                               convert_to_isoformat, hms_to_int)
    * eox_nelp/programs/api/v1/serializers.py (ProgramsMetadataSerializer)
    * eox_nelp/programs/api/v1/views.py       (national-id decorator, list view
                                               finalize_response)
    * eox_nelp/signals/utils.py               (_generate_external_certificate_data,
                                               generate_reference_id)

  Strings are modelled as Lean String / List Char; Python dicts whose keys are
  accessed by the code are modelled as association lists with Python dict
  update semantics (replace in place, else append).  Host-platform
  collaborators (modulestore, Hijri conversion, activity-code table, user
  resolution, enrollment) are parameters of the embedded functions.
-/
import Mathlib

namespace EoxNelp

/-! ## Python-style scalar values -/

/-- A JSON-ish scalar value as stored in the dictionaries the code builds:
strings, integers, or Python `None`. -/
inductive PValue where
  | str (s : String)
  | int (n : Int)
  | null
deriving DecidableEq, Repr

/-- A flat Python dict with string keys, in insertion order
(the shape of `program_metadata_v1` and of the assembled lookup record). -/
abbrev PDict := List (String × PValue)

/-- `d.get(k)` on an association list: first binding wins. -/
def pgetOpt (d : PDict) (k : String) : Option PValue :=
  match d with
  | [] => none
  | (k', v) :: rest => if k' = k then some v else pgetOpt rest k

/-- Python `d.get(k, default)`. -/
def pget (d : PDict) (k : String) (default : PValue) : PValue :=
  (pgetOpt d k).getD default

/-! ## Character-level helpers shared by the embedded parsers -/

/-- ASCII whitespace recognised by the embedding of Python `str.strip()` /
`int()` whitespace skipping. -/
def isPyWs (c : Char) : Bool :=
  c = ' ' || c = '\t' || c = '\n' || c = '\x0d' || c = '\x0b' || c = '\x0c'

/-- Strip leading and trailing whitespace (Python `str.strip()`). -/
def stripWs (l : List Char) : List Char :=
  ((l.dropWhile isPyWs).reverse.dropWhile isPyWs).reverse

/-- Numeric value of a decimal digit character. -/
def digitVal (c : Char) : Nat := c.toNat - 48

/-- Parse a non-empty all-digit character list as a natural number
(most significant digit first); `none` otherwise. -/
def digitsVal : List Char → Option Nat
  | [] => none
  | ds => go 0 ds
where
  go (acc : Nat) : List Char → Option Nat
  | [] => some acc
  | c :: cs => if c.isDigit then go (acc * 10 + digitVal c) cs else none

/-- Embedding of Python `int(s)` on the fragment the code exercises:
optional surrounding whitespace, optional sign, then decimal digits.
(Underscore digit-group separators are not modelled.)  Returns `none`
where Python raises `ValueError`. -/
def pyInt (l : List Char) : Option Int :=
  match stripWs l with
  | '+' :: ds => (digitsVal ds).map (fun n => (n : Int))
  | '-' :: ds => (digitsVal ds).map (fun n => -(n : Int))
  | ds => (digitsVal ds).map (fun n => (n : Int))

/-- Embedding of Python `s.split(":")` (single-character separator):
always returns at least one part; empty parts are kept. -/
def splitColon : List Char → List (List Char)
  | [] => [[]]
  | c :: cs =>
    match splitColon cs with
    | [] => [[]]
    | h :: t => if c = ':' then [] :: h :: t else (c :: h) :: t

/-! ## Duration converter: `hms_to_int` (programs/api/v1/utils.py) -/

/-- Exact value of Python `round(h + m/60)` for an integer `h` and clamped
minutes `m ∈ [0,59]`: round half to even.  The only tie is `m = 30`.
(The float arithmetic of the source is exact at these points for every
`h` of magnitude below `2^52`; the embedding uses the exact rational
rounding throughout.) -/
def pyRound60 (h : Int) (m : Nat) : Int :=
  if m < 30 then h
  else if 30 < m then h + 1
  else if h % 2 = 0 then h else h + 1

/-- Embedding of `hms_to_int(time_str)`: `None`/empty → `None`; a string
containing `":"` is split, both parts parsed with `int`, minutes outside
`[0,59]` reset to `0`, result `round(hours + minutes/60)`; a plain string is
parsed with `int`; any `ValueError` (non-numeric part, not exactly two
parts) yields `None`. -/
def hms_to_int (time_str : Option String) : Option Int :=
  match time_str with
  | none => none
  | some s =>
    match splitColon s.data with
    | [x] => if x.isEmpty then none else pyInt x
    | [a, b] =>
      match pyInt a, pyInt b with
      | some h, some m =>
        let m' : Int := if m < 0 || 60 ≤ m then 0 else m
        some (pyRound60 h m'.toNat)
      | _, _ => none
    | _ => none

/-! ## Date converter: `convert_to_isoformat` (programs/api/v1/utils.py)

The source replaces every `'Z'` with `"+00:00"`, parses with
`datetime.strptime(_, '%Y-%m-%dT%H:%M:%S%z')` and returns
`dt.date().isoformat()`; any `ValueError` is caught and `None` returned.
The strptime format is embedded following CPython's `_strptime` patterns:
`%Y` is exactly four digits; `%m`, `%d`, `%H`, `%M`, `%S` are one or two
digits within their ranges (seconds 60/61 pass the pattern but fail
`datetime` construction, so they yield `None`); `%z` is
`[+-]HH[:]MM[[:]SS[.ffffff]]` with total magnitude below 24 hours.  The
literal `T` is matched case-sensitively (the source's case-insensitive
regex would also accept `t`). -/

/-- Embedding of Python `s.replace("Z", "+00:00")` for a single-character
pattern: every `'Z'` becomes the six characters `+00:00`. -/
def replaceZ : List Char → List Char
  | [] => []
  | c :: cs =>
    if c = 'Z' then '+' :: '0' :: '0' :: ':' :: '0' :: '0' :: replaceZ cs
    else c :: replaceZ cs

/-- Consume exactly two decimal digits. -/
def parse2 (l : List Char) : Option (Nat × List Char) :=
  match l with
  | c1 :: c2 :: rest =>
    if c1.isDigit && c2.isDigit then some (digitVal c1 * 10 + digitVal c2, rest)
    else none
  | _ => none

/-- Consume one or two decimal digits, greedily (as the strptime patterns
`\d\d?` do when the following literal is never a digit). -/
def parse1or2 (l : List Char) : Option (Nat × List Char) :=
  match l with
  | c1 :: c2 :: rest =>
    if c1.isDigit then
      if c2.isDigit then some (digitVal c1 * 10 + digitVal c2, rest)
      else some (digitVal c1, c2 :: rest)
    else none
  | [c1] => if c1.isDigit then some (digitVal c1, []) else none
  | [] => none

/-- Consume an expected literal character. -/
def expectChar (c : Char) (l : List Char) : Option (List Char) :=
  match l with
  | x :: rest => if x = c then some rest else none
  | [] => none

/-- One to six fraction digits (the `\.\d{1,6}` tail of `%z`). -/
def fracOk (l : List Char) : Bool :=
  l.length ≥ 1 && l.length ≤ 6 && l.all Char.isDigit

/-- Does the remaining input form a complete, constructible UTC offset per
`%z` (`[+-]\d\d:?[0-5]\d(:?[0-5]\d(\.\d{1,6})?)?`) whose magnitude is
strictly below 24 hours (the `timezone` constructor's requirement)? -/
def offsetOk (l : List Char) : Bool :=
  match l with
  | sgn :: r0 =>
    (sgn = '+' || sgn = '-') &&
    (match parse2 r0 with
     | none => false
     | some (hh, r1) =>
       let r2 := match r1 with
         | ':' :: r => r
         | _ => r1
       match parse2 r2 with
       | none => false
       | some (mm, r3) =>
         mm ≤ 59 &&
         (match r3 with
          | [] => hh * 3600 + mm * 60 < 86400
          | _ =>
            let r4 := match r3 with
              | ':' :: r => r
              | _ => r3
            match parse2 r4 with
            | none => false
            | some (ss, r5) =>
              ss ≤ 59 && hh * 3600 + mm * 60 + ss < 86400 &&
              (match r5 with
               | [] => true
               | '.' :: ds => fracOk ds
               | _ => false)))
  | [] => false

/-- Gregorian leap year. -/
def isLeap (y : Nat) : Bool := (y % 4 = 0 && y % 100 ≠ 0) || y % 400 = 0

/-- Number of days of month `m` in year `y`. -/
def daysInMonth (y m : Nat) : Nat :=
  if m = 2 then (if isLeap y then 29 else 28)
  else if m = 4 || m = 6 || m = 9 || m = 11 then 30
  else 31

/-- Embedding of `datetime.strptime(l, '%Y-%m-%dT%H:%M:%S%z')` followed by
`datetime` construction: returns the (year, month, day) triple on success,
`none` where the source raises `ValueError`. -/
def parseTimestamp (l : List Char) : Option (Nat × Nat × Nat) := do
  let (y1, r) ← parse2 l
  let (y2, r) ← parse2 r
  let y := y1 * 100 + y2
  let r ← expectChar '-' r
  let (mo, r) ← parse1or2 r
  let r ← expectChar '-' r
  let (d, r) ← parse1or2 r
  let r ← expectChar 'T' r
  let (h, r) ← parse1or2 r
  let r ← expectChar ':' r
  let (mi, r) ← parse1or2 r
  let r ← expectChar ':' r
  let (s, r) ← parse1or2 r
  if offsetOk r && 1 ≤ y && 1 ≤ mo && mo ≤ 12 && 1 ≤ d && d ≤ daysInMonth y mo
      && h ≤ 23 && mi ≤ 59 && s ≤ 59 then
    some (y, mo, d)
  else none

/-- Two-digit zero-padded decimal rendering of `n % 100`. -/
def pad2 (n : Nat) : List Char := [Nat.digitChar (n / 10 % 10), Nat.digitChar (n % 10)]

/-- Four-digit zero-padded decimal rendering of `n % 10000`. -/
def pad4 (n : Nat) : List Char := pad2 (n / 100) ++ pad2 n

/-- `date(y, mo, d).isoformat()`: `YYYY-MM-DD`. -/
def formatDate (y mo d : Nat) : String :=
  ⟨pad4 y ++ '-' :: (pad2 mo ++ '-' :: pad2 d)⟩

/-- Embedding of `convert_to_isoformat(date_string)`:
`None`/empty → `None`; otherwise replace `'Z'` by `"+00:00"`, parse as a
`%Y-%m-%dT%H:%M:%S%z` timestamp and return the date portion in ISO form;
parse failure → `None` (the source logs and returns `None`). -/
def convert_to_isoformat (date_string : Option String) : Option String :=
  match date_string with
  | none => none
  | some s =>
    if s.data.isEmpty then none
    else
      match parseTimestamp (replaceZ s.data) with
      | some (y, mo, d) => some (formatDate y mo d)
      | none => none

/-- The canonical `YYYY-MM-DDTHH:MM:SSZ` rendering of a timestamp. -/
def mkTimestamp (y mo d h mi s : Nat) : String :=
  ⟨pad4 y ++ '-' :: (pad2 mo ++ '-' :: (pad2 d ++ 'T' ::
    (pad2 h ++ ':' :: (pad2 mi ++ ':' :: (pad2 s ++ ['Z'])))))⟩

/-! ## Modulestore model (edxapp_wrapper.modulestore collaborator)

The host content store is modelled as a partial map from course keys to
course blocks.  `CourseKey.from_string` is modelled as the identity on the
course-id string (the claims never rely on distinct ids colliding).  A
course block carries its `other_course_settings` dict — whose values are
modelled as flat JSON dicts, the only shape the code under verification
reads — plus an abstract remainder `rest` standing for every other field
of the course object. -/

/-- Generic association-list lookup (first binding wins), the read half of
Python dict access. -/
def alookup {β : Type} (l : List (String × β)) (k : String) : Option β :=
  match l with
  | [] => none
  | (k', v) :: rest => if k' = k then some v else alookup rest k

/-- Python dict assignment `d[k] = v`: replace the first binding of `k` in
place, or append a new binding at the end. -/
def aset {β : Type} (l : List (String × β)) (k : String) (v : β) : List (String × β) :=
  match l with
  | [] => [(k, v)]
  | (k', v') :: rest => if k' = k then (k', v) :: rest else (k', v') :: aset rest k v

/-- A course object held by the content store. -/
structure CourseBlock (α : Type) where
  other_course_settings : List (String × PDict)
  rest : α

/-- The content store's state: course key (course-id string) to course
block. -/
def Store (α : Type) : Type := String → Option (CourseBlock α)

/-! ## Program metadata accessor (programs/api/v1/utils.py) -/

/-- Embedding of `get_program_metadata(course_id)`: load the course block
and return `other_course_settings.get("program_metadata_v1", {})`.
The outer `Option` is `none` exactly when the course is absent from the
store (where the source would fail on the host lookup itself, a case the
claims presuppose away). -/
def get_program_metadata {α : Type} (store : Store α) (course_id : String) :
    Option PDict :=
  (store course_id).map fun course_block =>
    (alookup course_block.other_course_settings "program_metadata_v1").getD []

/-- The course block that `update_program_metadata` mutates and hands to
`store.update_item`: only `other_course_settings["program_metadata_v1"]`
is reassigned. -/
def updated_course_block {α : Type} (course_block : CourseBlock α) (program_data : PDict) :
    CourseBlock α :=
  { course_block with
      other_course_settings :=
        aset course_block.other_course_settings "program_metadata_v1" program_data }

/-- Embedding of `update_program_metadata(course_id, program_data, user)`:
load the course block, overwrite the `program_metadata_v1` settings entry,
persist through `update_item` (modelled as writing the block back at its
key).  `none` when the course is absent (host failure in the source).
The acting user's id is threaded but does not affect the stored state. -/
def update_program_metadata {α : Type} (store : Store α) (course_id : String)
    (program_data : PDict) (_user_id : Int) : Option (Store α) :=
  (store course_id).map fun course_block =>
    fun k =>
      if k = course_id then some (updated_course_block course_block program_data)
      else store k

/-! ## Program lookup assembler (programs/api/v1/utils.py) -/

/-- Input shape of `course_api_data`: the course listing record fields the
assembler reads.  `endDate` models the `"end"` key. -/
structure CourseApiData where
  course_id : String
  name : Option String
  start : Option String
  endDate : Option String
  effort : Option String

/-- A nullable string as a stored value. -/
def optStr : Option String → PValue
  | some s => .str s
  | none => .null

/-- `TYPES_OF_ACTIVITY_MAPPING.get(v)` for an int-keyed mapping: a non-int
key is never present, so it yields `None`. -/
def activityLabel (types_of_activity : Int → Option String) : PValue → Option String
  | .int n => types_of_activity n
  | _ => none

/-- Python `x or 0` on the result of `hms_to_int`: `None` → `0`, any
integer is returned unchanged (`0 or 0` is `0`). -/
def orZero (x : Option Int) : Int := x.getD 0

/-- Embedding of `get_program_lookup_representation(course_api_data)`.
Collaborators are parameters: the content store backing
`get_program_metadata`, the activity-code table
`TYPES_OF_ACTIVITY_MAPPING` (constants module, int code → label), and the
Hijri converter `hijri` standing for
`Gregorian.fromisoformat(d).to_hijri().isoformat()`, which the source
invokes only under the non-null guard.  Returns the assembled dict with
the source's key strings in the source's order; `none` when the course is
absent from the store. -/
def get_program_lookup_representation {α : Type} (store : Store α)
    (types_of_activity : Int → Option String) (hijri : String → String)
    (course_api_data : CourseApiData) : Option PDict :=
  (get_program_metadata store course_api_data.course_id).map fun program_metadata =>
    let data_start_iso := convert_to_isoformat course_api_data.start
    let data_end_iso := convert_to_isoformat course_api_data.endDate
    [ ("program_name", optStr course_api_data.name),
      ("program_code", pget program_metadata "program_code" .null),
      ("training_location", .str "FutureX"),
      ("data_start", optStr data_start_iso),
      ("data_start_hijri",
        match data_start_iso with
        | some d => .str (hijri d)
        | none => .null),
      ("date_end", optStr data_end_iso),
      ("date_end_hijri",
        match data_end_iso with
        | some d => .str (hijri d)
        | none => .null),
      ("trainer_type", .int 10),
      ("type_of_activity",
        optStr (activityLabel types_of_activity
          (pget program_metadata "type_of_activity" (.int (-1))))),
      ("type_of_activity_id", pget program_metadata "type_of_activity" .null),
      ("unit", .str "hour"),
      ("duration", .int (orZero (hms_to_int course_api_data.effort))),
      ("mandatory", pget program_metadata "mandatory" .null),
      ("program_approve", pget program_metadata "program_approve" .null),
      ("code", .str course_api_data.course_id) ]

/-! ## National id validation and the program-lookup view
(programs/api/v1/views.py) -/

/-- Modelled from the spec: `is_valid_national_id` lives in
`eox_nelp/utils.py`, which is not among the provided sources (only its
callers are).  The spec defines a National ID as a string "validated as
digits-only with length 10–15". -/
def is_valid_national_id (national_id : String) : Bool :=
  10 ≤ national_id.length && national_id.length ≤ 15
    && national_id.data.all Char.isDigit

/-- The observable part of a program-lookup HTTP response: status code and
the structured `error` code of the body, if any. -/
structure LookupResponse where
  status : Nat
  error : Option String
deriving DecidableEq, Repr

/-- Python truthiness of `query_params.get("national_id")`: present and
non-empty. -/
def truthyParam : Option String → Bool
  | some s => !s.isEmpty
  | none => false

/-- Embedding of `ProgramsListView.finalize_response`: when the
`national_id` query parameter is truthy and the wrapped response is a 404,
or a 200 whose `results` list is empty, the response is rewritten to a 404
with error code `NO_PROGRAM_FOR_NATIONAL_ID`. -/
def finalize_response (national_id : Option String) (resp : LookupResponse)
    (results_empty : Bool) : LookupResponse :=
  if truthyParam national_id
      && (resp.status = 404 || (resp.status = 200 && results_empty)) then
    ⟨404, some "NO_PROGRAM_FOR_NATIONAL_ID"⟩
  else resp

/-- Embedding of a full `GET /program-lookup` request:
`require_national_id_query_param` (missing or empty parameter → 400
`MISSING_NATIONAL_ID`; invalid → 422 `INVALID_NATIONAL_ID`; then
`get_object_or_404` on the user, a 404 when no user carries the id),
the wrapped list view (assembled records abstracted to whether the final
result set is empty), then `finalize_response`. -/
def program_lookup_get (national_id : Option String) (user_exists : Bool)
    (results_empty : Bool) : LookupResponse :=
  let inner : LookupResponse :=
    match national_id with
    | none => ⟨400, some "MISSING_NATIONAL_ID"⟩
    | some nid =>
      if nid.isEmpty then ⟨400, some "MISSING_NATIONAL_ID"⟩
      else if !is_valid_national_id nid then ⟨422, some "INVALID_NATIONAL_ID"⟩
      else if !user_exists then ⟨404, none⟩
      else ⟨200, none⟩
  finalize_response national_id inner results_empty

/-! ## Programs metadata serializer and POST endpoint
(programs/api/v1/serializers.py, views.py)

`ProgramsMetadataSerializer` fields in declaration order: `trainer_type`
(read-only, default 10), `type_of_activity` (IntegerField),
`mandatory`/`program_approve` (CharField max_length=2 plus the mixin's
choice validator), `program_code` (CharField max_length=64 plus the
mixin's non-blank validator).  DRF CharFields trim surrounding whitespace
before validating; a field's `validate_<name>` hook runs only after the
field's own checks pass, and errors are collected per field. -/

/-- DRF CharField whitespace trimming (Python `str.strip()`). -/
def trimStr (s : String) : String := ⟨stripWs s.data⟩

/-- A required IntegerField. -/
def checkRequiredInt (v : Option Int) : Except String Int :=
  match v with
  | none => .error "This field is required."
  | some n => .ok n

/-- A required CharField(max_length=2) followed by the mixin validator
restricting the value to `"01"`/`"00"` (message built from the field
name). -/
def checkChoiceField (field_name : String) (v : Option String) : Except String String :=
  match v with
  | none => .error "This field is required."
  | some s =>
    let t := trimStr s
    if t.isEmpty then .error "This field may not be blank."
    else if t.length > 2 then .error "Ensure this field has no more than 2 characters."
    else if t = "01" || t = "00" then .ok t
    else .error (field_name ++ " must be one of: 01, 00")

/-- A required CharField(max_length=64) followed by the mixin's non-blank
`validate_program_code` (which returns the stripped value). -/
def checkProgramCode (v : Option String) : Except String String :=
  match v with
  | none => .error "This field is required."
  | some s =>
    let t := trimStr s
    if t.isEmpty then .error "This field may not be blank."
    else if t.length > 64 then .error "Ensure this field has no more than 64 characters."
    else .ok t

/-- The writable fields of a `POST /metadata/{course_id}` body
(absent JSON keys are `none`). -/
structure MetaBody where
  type_of_activity : Option Int
  mandatory : Option String
  program_approve : Option String
  program_code : Option String

/-- The serializer's validated output record (`serializer.data`), with the
read-only `trainer_type` defaulted to 10. -/
structure MetaOut where
  trainer_type : Int
  type_of_activity : Int
  mandatory : String
  program_approve : String
  program_code : String
deriving DecidableEq, Repr

/-- The field-level error entry contributed by one failed field check. -/
def fieldErrors (field_name : String) {β : Type} (r : Except String β) :
    List (String × String) :=
  match r with
  | .error msg => [(field_name, msg)]
  | .ok _ => []

/-- Embedding of `ProgramsMetadataSerializer(data=body).is_valid()`:
either the validated record, or the per-field error dictionary. -/
def validateMetadata (body : MetaBody) : Except (List (String × String)) MetaOut :=
  let r1 := checkRequiredInt body.type_of_activity
  let r2 := checkChoiceField "mandatory" body.mandatory
  let r3 := checkChoiceField "program_approve" body.program_approve
  let r4 := checkProgramCode body.program_code
  match r1, r2, r3, r4 with
  | .ok n, .ok m, .ok p, .ok c =>
    .ok { trainer_type := 10, type_of_activity := n, mandatory := m,
          program_approve := p, program_code := c }
  | _, _, _, _ =>
    .error (fieldErrors "type_of_activity" r1 ++ fieldErrors "mandatory" r2
      ++ fieldErrors "program_approve" r3 ++ fieldErrors "program_code" r4)

/-- `serializer.data` as the dict stored by `update_program_metadata`,
with the serializer's field order. -/
def MetaOut.toPDict (o : MetaOut) : PDict :=
  [ ("trainer_type", .int o.trainer_type),
    ("type_of_activity", .int o.type_of_activity),
    ("mandatory", .str o.mandatory),
    ("program_approve", .str o.program_approve),
    ("program_code", .str o.program_code) ]

/-- Outcome of the POST handler: HTTP status, the validated record of a
201 body, the field-level errors of a 400 body, and the resulting store
state (`none` only when the course itself is absent on the write path). -/
structure PostOutcome (α : Type) where
  status : Nat
  body : Option MetaOut
  errors : List (String × String)
  new_store : Option (Store α)

/-- Embedding of `ProgramsMetadataView.post`: validate the body
(`raise_exception=True` turns failure into a 400 before any store access),
then overwrite the stored metadata with `serializer.data` and answer 201
with the validated record. -/
def metadata_post {α : Type} (store : Store α) (course_id : String)
    (body : MetaBody) (user_id : Int) : PostOutcome α :=
  match validateMetadata body with
  | .error errs => ⟨400, none, errs, some store⟩
  | .ok out =>
    ⟨201, some out, [], update_program_metadata store course_id out.toPDict user_id⟩

/-! ## External certificate data builder (signals/utils.py) -/

/-- The user fields read by the builder: `username`, and
`extrainfo.arabic_name` when an `extrainfo` record exists. -/
structure PlatformUser where
  username : String
  arabic_name : Option String

/-- The slice of `CertificateData` the builder reads: the event user's id,
`pii.name`, the grade (a decimal fraction, modelled exactly as a
rational), and the course key string. -/
structure CertificateEvent where
  user_id : Int
  pii_name : String
  grade : ℚ
  course_id : String

/-- Failure modes of the builder, in the order the source raises them. -/
inductive CertGenError where
  | userNotFound
  | invalidNationalId
  | missingGroupCode
deriving DecidableEq, Repr

/-- Embedding of `generate_reference_id(national_id, course_id)`:
validates the national id (`raise_exception=True`) and returns
`"{national_id}~{course_id}"`. -/
def generate_reference_id (national_id course_id : String) :
    Except CertGenError String :=
  if is_valid_national_id national_id then .ok (national_id ++ "~" ++ course_id)
  else .error .invalidNationalId

/-- The record sent to the external certificate API. -/
structure ExternalCertData where
  reference_id : String
  created_at : String
  expiration_date : Option String
  grade : ℚ
  is_passing : Bool
  group_code : String
  user_national_id : String
  user_english_name : String
  user_arabic_name : String
deriving DecidableEq, Repr

/-- Embedding of `_generate_external_certificate_data(time, certificate_data)`.
Collaborators as parameters: the user table (`User.objects.get(id=...)`),
the `EXTERNAL_CERTIFICATES_GROUP_CODES` setting, and the grading collaborator
behind `_user_has_passing_grade`.  `time` is the (year, month, day) of the
creation datetime; `created_at` is `str(time.date())`.  Failures follow the
source's evaluation order: user lookup, then the reference-id validation,
then the `group_codes[course_id]` lookup that raises `KeyError` when the
course has no group-code mapping. -/
def generate_external_certificate_data
    (users : Int → Option PlatformUser)
    (group_codes : String → Option String)
    (has_passing_grade : Int → String → Bool)
    (time : Nat × Nat × Nat) (event : CertificateEvent) :
    Except CertGenError ExternalCertData :=
  match users event.user_id with
  | none => .error .userNotFound
  | some u =>
    let national_id := u.username.take 10
    match generate_reference_id national_id event.course_id with
    | .error e => .error e
    | .ok ref =>
      match group_codes event.course_id with
      | none => .error .missingGroupCode
      | some gc =>
        .ok { reference_id := ref,
              created_at := formatDate time.1 time.2.1 time.2.2,
              expiration_date := none,
              grade := event.grade * 100,
              is_passing := has_passing_grade event.user_id event.course_id,
              group_code := gc,
              user_national_id := national_id,
              user_english_name := event.pii_name,
              user_arabic_name := (u.arabic_name).getD "" }

/-! ## Association-list lemmas -/

theorem alookup_aset_self {β : Type} (l : List (String × β)) (k : String) (v : β) :
    alookup (aset l k v) k = some v := by
  induction l with
  | nil => simp [aset, alookup]
  | cons hd tl ih =>
    obtain ⟨k', v'⟩ := hd
    by_cases h : k' = k <;> simp [aset, alookup, h, ih]

theorem alookup_aset_ne {β : Type} (l : List (String × β)) (k k' : String) (v : β)
    (h : k' ≠ k) : alookup (aset l k v) k' = alookup l k' := by
  induction l with
  | nil => simp [aset, alookup, Ne.symm h]
  | cons hd tl ih =>
    obtain ⟨k'', v''⟩ := hd
    by_cases hk : k'' = k
    · subst hk
      simp [aset, alookup, Ne.symm h]
    · simp [aset, alookup, hk, ih]

/-! ## Concrete objects used by witnesses -/

/-- A demo course block: one unrelated settings key, an existing metadata
entry, and a non-trivial remainder field. -/
def demoBlock : CourseBlock Nat :=
  ⟨[("licenses", [("kind", .str "cc")]),
    ("program_metadata_v1", [("program_code", .str "OLD")])], 42⟩

/-- A demo one-course store. -/
def demoStore : Store Nat :=
  fun k => if k = "course-v1:edx+cd101+23213" then some demoBlock else none

/-- A demo metadata mapping to write. -/
def demoMeta : PDict := [("program_code", .str "P1")]

/-! ## Claims C5, C6, C10: the metadata accessor -/

theorem update_then_get_eq {α : Type} (store : Store α) (course_id : String)
    (data : PDict) (user_id : Int) (cb : CourseBlock α)
    (h : store course_id = some cb) :
    (update_program_metadata store course_id data user_id).bind
      (fun store' => get_program_metadata store' course_id) = some data := by
  simp [update_program_metadata, h, get_program_metadata, updated_course_block,
    alookup_aset_self]

/-- **C5**: for every course id and metadata mapping, writing with
`update_program_metadata` and then reading with `get_program_metadata` on
the same course returns exactly the written mapping — the write replaces
the whole `program_metadata_v1` value rather than merging it with the
previous one. -/
theorem c5_update_then_get_roundtrip {α : Type} (store : Store α) (course_id : String)
    (data : PDict) (user_id : Int) (cb : CourseBlock α)
    (h : store course_id = some cb) :
    (update_program_metadata store course_id data user_id).bind
      (fun store' => get_program_metadata store' course_id) = some data :=
  update_then_get_eq store course_id data user_id cb h

/-- Witness for C5: at the demo store, writing `{"program_code": "P1"}`
and reading it back returns exactly that mapping. -/
theorem c5_update_then_get_roundtrip_witness :
    (update_program_metadata demoStore "course-v1:edx+cd101+23213" demoMeta 7).bind
      (fun store' => get_program_metadata store' "course-v1:edx+cd101+23213") =
      some demoMeta :=
  c5_update_then_get_roundtrip _ _ _ _ demoBlock rfl

/-- **C6**: for every course id, reading the program metadata of a course
whose settings hold no `program_metadata_v1` entry returns the empty
mapping (the `.get` default), not `None` and not an exception. -/
theorem c6_get_program_metadata_default {α : Type} (store : Store α)
    (course_id : String) (cb : CourseBlock α) (h : store course_id = some cb)
    (habsent : alookup cb.other_course_settings "program_metadata_v1" = none) :
    get_program_metadata store course_id = some [] := by
  simp [get_program_metadata, h, habsent]

/-- Witness for C6 at a concrete course with unrelated settings only. -/
theorem c6_get_program_metadata_default_witness :
    get_program_metadata
      (fun k => if k = "course-v1:edx+cd101+23213" then
        some (⟨[("licenses", [("kind", .str "cc")])], ()⟩ : CourseBlock Unit) else none)
      "course-v1:edx+cd101+23213" = some [] :=
  c6_get_program_metadata_default _ _
    ⟨[("licenses", [("kind", .str "cc")])], ()⟩ rfl rfl

/-- **C10**: `update_program_metadata` writes back a course block that
differs from the loaded one only at the `program_metadata_v1` key of
`other_course_settings`: every other settings key and the block's
remaining fields keep their loaded values, and the store is unchanged at
every other course key. -/
theorem c10_update_program_metadata_frame {α : Type} (store : Store α)
    (course_id : String) (data : PDict) (user_id : Int) (cb : CourseBlock α)
    (h : store course_id = some cb) :
    update_program_metadata store course_id data user_id =
      some (fun k => if k = course_id then some (updated_course_block cb data)
        else store k) ∧
    (∀ k, k ≠ "program_metadata_v1" →
      alookup (updated_course_block cb data).other_course_settings k =
        alookup cb.other_course_settings k) ∧
    (updated_course_block cb data).rest = cb.rest := by
  refine ⟨by simp [update_program_metadata, h], ?_, rfl⟩
  intro k hk
  exact alookup_aset_ne _ _ _ _ hk

/-- Witness for C10 at the demo store: the block passed to `update_item`
keeps the unrelated `licenses` entry and the remainder field `42`. -/
theorem c10_update_program_metadata_frame_witness :
    update_program_metadata demoStore "course-v1:edx+cd101+23213" demoMeta 7 =
      some (fun k => if k = "course-v1:edx+cd101+23213" then
        some (updated_course_block demoBlock demoMeta) else demoStore k) ∧
    (∀ k, k ≠ "program_metadata_v1" →
      alookup (updated_course_block demoBlock demoMeta).other_course_settings k =
        alookup demoBlock.other_course_settings k) ∧
    (updated_course_block demoBlock demoMeta).rest = demoBlock.rest :=
  c10_update_program_metadata_frame _ _ _ _ demoBlock rfl

/-! ## Claim C2: the duration converter -/

theorem digitChar_isDigit (k : Nat) (hk : k < 10) : (Nat.digitChar k).isDigit = true := by
  interval_cases k <;> rfl

theorem digitVal_digitChar (k : Nat) (hk : k < 10) : digitVal (Nat.digitChar k) = k := by
  interval_cases k <;> rfl

theorem digitChar_ne_Z (k : Nat) (hk : k < 10) : Nat.digitChar k ≠ 'Z' := by
  interval_cases k <;> decide

theorem replaceZ_append (a b : List Char) :
    replaceZ (a ++ b) = replaceZ a ++ replaceZ b := by
  induction a with
  | nil => rfl
  | cons c cs ih => by_cases h : c = 'Z' <;> simp [replaceZ, h, ih]

theorem replaceZ_of_noZ (l : List Char) (h : ∀ c ∈ l, c ≠ 'Z') : replaceZ l = l := by
  induction l with
  | nil => rfl
  | cons c cs ih =>
    simp [replaceZ, h c (List.mem_cons_self c cs),
      ih fun x hx => h x (List.mem_cons_of_mem _ hx)]

theorem pad2_noZ (n : Nat) : ∀ c ∈ pad2 n, c ≠ 'Z' := by
  intro c hc
  simp [pad2] at hc
  rcases hc with h | h <;> subst h <;>
    exact digitChar_ne_Z _ (Nat.mod_lt _ (by norm_num))

theorem replaceZ_pad2 (n : Nat) (r : List Char) :
    replaceZ (pad2 n ++ r) = pad2 n ++ replaceZ r := by
  rw [replaceZ_append, replaceZ_of_noZ _ (pad2_noZ n)]

theorem replaceZ_cons_ne (c : Char) (hc : c ≠ 'Z') (r : List Char) :
    replaceZ (c :: r) = c :: replaceZ r := by
  simp [replaceZ, hc]

theorem parse2_pad2 (n : Nat) (r : List Char) :
    parse2 (pad2 n ++ r) = some (n % 100, r) := by
  have h1 : (n / 10 % 10) < 10 := Nat.mod_lt _ (by norm_num)
  have h2 : (n % 10) < 10 := Nat.mod_lt _ (by norm_num)
  simp [pad2, parse2, digitChar_isDigit _ h1, digitChar_isDigit _ h2,
    digitVal_digitChar _ h1, digitVal_digitChar _ h2]
  omega

theorem parse1or2_pad2 (n : Nat) (r : List Char) :
    parse1or2 (pad2 n ++ r) = some (n % 100, r) := by
  have h1 : (n / 10 % 10) < 10 := Nat.mod_lt _ (by norm_num)
  have h2 : (n % 10) < 10 := Nat.mod_lt _ (by norm_num)
  simp [pad2, parse1or2, digitChar_isDigit _ h1, digitChar_isDigit _ h2,
    digitVal_digitChar _ h1, digitVal_digitChar _ h2]
  omega

theorem expectChar_cons_self (c : Char) (r : List Char) :
    expectChar c (c :: r) = some r := by
  simp [expectChar]

theorem daysInMonth_le (y m : Nat) : daysInMonth y m ≤ 31 := by
  unfold daysInMonth
  split
  · split <;> omega
  · split <;> omega

/-- **C7**: `convert_to_isoformat` maps every well-formed
`YYYY-MM-DDTHH:MM:SSZ` UTC timestamp (calendar-valid, the canonical
zero-padded rendering) to its calendar date portion `YYYY-MM-DD` — which
is exactly the timestamp's first ten characters — maps `None` and the
empty string to `None`, and maps an unparsable string to `None` instead
of raising; including the spec's concrete examples. -/
theorem c7_convert_to_isoformat_spec :
    (∀ y mo d h mi s : Nat, 1 ≤ y → y ≤ 9999 → 1 ≤ mo → mo ≤ 12 → 1 ≤ d →
        d ≤ daysInMonth y mo → h ≤ 23 → mi ≤ 59 → s ≤ 59 →
        convert_to_isoformat (some (mkTimestamp y mo d h mi s)) =
          some (formatDate y mo d))
    ∧ (∀ y mo d h mi s : Nat,
        (mkTimestamp y mo d h mi s).data.take 10 = (formatDate y mo d).data)
    ∧ convert_to_isoformat none = none
    ∧ convert_to_isoformat (some "") = none
    ∧ convert_to_isoformat (some "not-a-date") = none
    ∧ convert_to_isoformat (some "2023-01-01T12:00:00Z") = some "2023-01-01" := by
  refine ⟨?_, ?_, rfl, by decide, by decide, by decide⟩
  · intro y mo d h mi s hy1 hy2 hmo1 hmo2 hd1 hd2 hh hmi hs
    have hdm := daysInMonth_le y mo
    have hmo' : mo % 100 = mo := Nat.mod_eq_of_lt (by omega)
    have hd' : d % 100 = d := Nat.mod_eq_of_lt (by omega)
    have hh' : h % 100 = h := Nat.mod_eq_of_lt (by omega)
    have hmi' : mi % 100 = mi := Nat.mod_eq_of_lt (by omega)
    have hs' : s % 100 = s := Nat.mod_eq_of_lt (by omega)
    have hy' : y / 100 % 100 * 100 + y % 100 = y := by omega
    have hoff : offsetOk ['+', '0', '0', ':', '0', '0'] = true := by decide
    have hparse : parseTimestamp (pad4 y ++ '-' :: (pad2 mo ++ '-' :: (pad2 d ++ 'T' ::
        (pad2 h ++ ':' :: (pad2 mi ++ ':' ::
          (pad2 s ++ ['+', '0', '0', ':', '0', '0'])))))) = some (y, mo, d) := by
      simp only [parseTimestamp, pad4, List.append_assoc, parse2_pad2, parse1or2_pad2,
        expectChar_cons_self, Option.bind_eq_bind', Option.some_bind, hmo', hd', hh',
        hmi', hs', hy', hoff, Bool.true_and, Bool.and_eq_true, decide_eq_true_eq,
        true_and]
      rw [if_pos]
      exact ⟨⟨⟨⟨⟨⟨⟨hy1, hmo1⟩, hmo2⟩, hd1⟩, hd2⟩, hh⟩, hmi⟩, hs⟩
    have hrepl : replaceZ (mkTimestamp y mo d h mi s).data =
        pad4 y ++ '-' :: (pad2 mo ++ '-' :: (pad2 d ++ 'T' :: (pad2 h ++ ':' ::
          (pad2 mi ++ ':' :: (pad2 s ++ ['+', '0', '0', ':', '0', '0']))))) := by
      show replaceZ (pad4 y ++ '-' :: (pad2 mo ++ '-' :: (pad2 d ++ 'T' ::
        (pad2 h ++ ':' :: (pad2 mi ++ ':' :: (pad2 s ++ ['Z'])))))) = _
      rw [pad4, List.append_assoc, replaceZ_pad2, replaceZ_pad2,
        replaceZ_cons_ne '-' (by decide), replaceZ_pad2,
        replaceZ_cons_ne '-' (by decide), replaceZ_pad2,
        replaceZ_cons_ne 'T' (by decide), replaceZ_pad2,
        replaceZ_cons_ne ':' (by decide), replaceZ_pad2,
        replaceZ_cons_ne ':' (by decide), replaceZ_pad2]
      simp [pad4, List.append_assoc]
      rfl
    have hne : (mkTimestamp y mo d h mi s).data.isEmpty = false := by
      show (pad4 y ++ _).isEmpty = false
      simp [pad4, pad2]
    simp only [convert_to_isoformat, hne, Bool.false_eq_true, if_false, hrepl, hparse]
  · intro y mo d h mi s
    show (pad4 y ++ '-' :: (pad2 mo ++ '-' :: (pad2 d ++ 'T' :: (pad2 h ++ ':' ::
      (pad2 mi ++ ':' :: (pad2 s ++ ['Z'])))))).take 10 = _
    simp [pad4, pad2, formatDate]

/-- Witness for C7: the general branch applied at
`2023-01-01T12:00:00Z`. -/
theorem c7_convert_to_isoformat_spec_witness :
    convert_to_isoformat (some (mkTimestamp 2023 1 1 12 0 0)) =
      some (formatDate 2023 1 1) :=
  c7_convert_to_isoformat_spec.1 2023 1 1 12 0 0 (by omega) (by omega) (by omega)
    (by omega) (by omega) (by decide) (by omega) (by omega) (by omega)

/-! ## Claims C8 and C1: the assembler -/

/-- A demo course listing record with null start and end timestamps. -/
def demoCadNull : CourseApiData :=
  ⟨"course-v1:edx+cd101+23213", some "Test Course", none, none, some "5:00"⟩

/-- A demo course listing record with concrete timestamps. -/
def demoCadFull : CourseApiData :=
  ⟨"course-v1:edx+cd101+23213", some "Test Course",
    some "2020-01-01T00:00:00Z", some "2020-12-31T00:00:00Z", some "5:00"⟩

/-- **C8**: when the listing record's start (resp. end) timestamp is
`None`, the assembled record's Hijri start-date (resp. end-date) field
holds `None`; and with both timestamps null the assembled record does not
depend on the Hijri conversion collaborator at all — the converter is
never invoked on a null Gregorian date (the output is the same for every
possible converter). -/
theorem c8_null_dates_skip_hijri {α : Type} (store : Store α)
    (types_of_activity : Int → Option String) (hijri hijri' : String → String)
    (cad : CourseApiData) (cb : CourseBlock α) (hc : store cad.course_id = some cb) :
    (cad.start = none →
      (get_program_lookup_representation store types_of_activity hijri cad).map
        (fun rec => pgetOpt rec "data_start_hijri") = some (some .null))
    ∧ (cad.endDate = none →
      (get_program_lookup_representation store types_of_activity hijri cad).map
        (fun rec => pgetOpt rec "date_end_hijri") = some (some .null))
    ∧ (cad.start = none → cad.endDate = none →
      get_program_lookup_representation store types_of_activity hijri cad =
        get_program_lookup_representation store types_of_activity hijri' cad) := by
  refine ⟨?_, ?_, ?_⟩
  · intro hstart
    simp [get_program_lookup_representation, get_program_metadata, hc, hstart,
      convert_to_isoformat, pgetOpt]
  · intro hend
    simp [get_program_lookup_representation, get_program_metadata, hc, hend,
      convert_to_isoformat, pgetOpt]
  · intro hstart hend
    simp [get_program_lookup_representation, get_program_metadata, hc, hstart, hend,
      convert_to_isoformat]

/-- Witness for C8 at the demo store and a record with both dates null. -/
theorem c8_null_dates_skip_hijri_witness :
    (get_program_lookup_representation demoStore (fun _ => none)
        (fun _ => "1441-05-06") demoCadNull).map
      (fun rec => pgetOpt rec "data_start_hijri") = some (some .null) :=
  (c8_null_dates_skip_hijri demoStore (fun _ => none) (fun _ => "1441-05-06")
    (fun s => s) demoCadNull demoBlock rfl).1 rfl

/-- **C1** (divergence witness): at a listing record with a non-null start
timestamp, the assembled record exposes the start date under the keys
`"data_start"` / `"data_start_hijri"`, and has *no* `"date_start"` /
`"date_start_hijri"` keys — while the spec's data model, the repository's
own `ProgramLookupSerializer` (which declares `date_start` and
`date_start_hijri` as required output fields) and its unit tests
(`test_get_program_lookup_representation`) all use `"date_start"` /
`"date_start_hijri"`.  The end-date keys (`"date_end"`), and the constant
`"unit"`/`"training_location"` fields, match the claim. -/
theorem c1_start_date_keys_diverge :
    (get_program_lookup_representation demoStore (fun _ => none)
        (fun _ => "1441-05-06") demoCadFull).map
      (fun rec =>
        (pgetOpt rec "date_start", pgetOpt rec "date_start_hijri",
         pgetOpt rec "data_start", pgetOpt rec "data_start_hijri",
         pgetOpt rec "date_end", pgetOpt rec "date_end_hijri",
         pgetOpt rec "unit", pgetOpt rec "training_location")) =
      some (none, none,
        some (.str "2020-01-01"), some (.str "1441-05-06"),
        some (.str "2020-12-31"), some (.str "1441-05-06"),
        some (.str "hour"), some (.str "FutureX")) := by
  rfl

/-! ## Claim C4: the program-lookup request pipeline -/

/-- **C4** (counterexample): the claim says a *present* `national_id` that
is not a 10–15 digit string yields `422 INVALID_NATIONAL_ID`; but for the
present-and-empty parameter (`?national_id=`) the decorator's Python
truthiness test fires first and the code answers
`400 MISSING_NATIONAL_ID`. -/
theorem c4_empty_param_counterexample :
    program_lookup_get (some "") true false = ⟨400, some "MISSING_NATIONAL_ID"⟩ ∧
    program_lookup_get (some "") true false ≠ ⟨422, some "INVALID_NATIONAL_ID"⟩ := by
  constructor <;> decide

/-- **C4** (amended): a missing *or empty* `national_id` query parameter
yields `400 MISSING_NATIONAL_ID`; a present non-empty value that is not a
10–15 digit string yields `422 INVALID_NATIONAL_ID`; a valid value whose
resolved user has an empty assembled program set yields
`404 NO_PROGRAM_FOR_NATIONAL_ID`; and a valid value with a non-empty set
returns the list with `200`. -/
theorem c4_program_lookup_responses (nid : String) (user_exists results_empty : Bool) :
    (program_lookup_get none user_exists results_empty =
      ⟨400, some "MISSING_NATIONAL_ID"⟩)
    ∧ (program_lookup_get (some "") user_exists results_empty =
      ⟨400, some "MISSING_NATIONAL_ID"⟩)
    ∧ (nid ≠ "" → is_valid_national_id nid = false →
      program_lookup_get (some nid) user_exists results_empty =
        ⟨422, some "INVALID_NATIONAL_ID"⟩)
    ∧ (is_valid_national_id nid = true →
      program_lookup_get (some nid) true true =
        ⟨404, some "NO_PROGRAM_FOR_NATIONAL_ID"⟩)
    ∧ (is_valid_national_id nid = true →
      program_lookup_get (some nid) true false = ⟨200, none⟩) := by
  have hne : is_valid_national_id nid = true → nid ≠ "" := by
    intro hv he
    subst he
    exact absurd hv (by decide)
  have hemp : nid ≠ "" → nid.isEmpty = false := by
    intro h
    cases he : nid.isEmpty
    · rfl
    · exact absurd (String.isEmpty_iff nid |>.mp he) h
  have hes : "".isEmpty = true := rfl
  refine ⟨by simp [program_lookup_get, finalize_response, truthyParam],
    by simp [program_lookup_get, finalize_response, truthyParam, hes], ?_, ?_, ?_⟩
  · intro h hv
    simp [program_lookup_get, hemp h, hv, finalize_response]
  · intro hv
    simp [program_lookup_get, hemp (hne hv), hv, finalize_response, truthyParam]
  · intro hv
    simp [program_lookup_get, hemp (hne hv), hv, finalize_response, truthyParam]

/-- Witness for C4 (amended) at a 9-digit national id (`422`) and a valid
10-digit one with an empty and a non-empty program set. -/
theorem c4_program_lookup_responses_witness :
    (program_lookup_get (some "123456789") true false =
      ⟨422, some "INVALID_NATIONAL_ID"⟩)
    ∧ (program_lookup_get (some "1234567890") true true =
      ⟨404, some "NO_PROGRAM_FOR_NATIONAL_ID"⟩)
    ∧ (program_lookup_get (some "1234567890") true false = ⟨200, none⟩) :=
  ⟨(c4_program_lookup_responses "123456789" true false).2.2.1 (by decide) (by decide),
   (c4_program_lookup_responses "1234567890" true true).2.2.2.1 (by decide),
   (c4_program_lookup_responses "1234567890" true false).2.2.2.2 (by decide)⟩

/-! ## Claim C9: metadata POST validation -/

theorem trimStr_choice_len {t : String} (h : t = "01" ∨ t = "00") : t.length = 2 := by
  rcases h with h | h <;> subst h <;> rfl

theorem checkRequiredInt_isOk_iff (v : Option Int) :
    (∃ n, checkRequiredInt v = .ok n) ↔ (∃ n, v = some n) := by
  cases v <;> simp [checkRequiredInt]

theorem checkChoiceField_isOk_iff (fn : String) (v : Option String) :
    (∃ t, checkChoiceField fn v = .ok t) ↔
      (∃ s, v = some s ∧ (trimStr s = "01" ∨ trimStr s = "00")) := by
  cases v with
  | none => simp [checkChoiceField]
  | some s =>
    simp only [checkChoiceField, Option.some.injEq, exists_eq_left']
    split_ifs with h1 h2 h3
    · rw [String.isEmpty_iff] at h1
      simp [h1]
    · constructor
      · rintro ⟨t, ht⟩
        simp at ht
      · intro hc
        exact absurd (trimStr_choice_len hc) (by omega)
    · simp only [Bool.or_eq_true, decide_eq_true_eq] at h3
      exact ⟨fun _ => h3, fun _ => ⟨_, rfl⟩⟩
    · constructor
      · rintro ⟨t, ht⟩
        simp at ht
      · intro hc
        refine absurd ?_ h3
        simp only [Bool.or_eq_true, decide_eq_true_eq]
        exact hc

theorem checkProgramCode_isOk_iff (v : Option String) :
    (∃ t, checkProgramCode v = .ok t) ↔
      (∃ s, v = some s ∧ trimStr s ≠ "" ∧ (trimStr s).length ≤ 64) := by
  cases v with
  | none => simp [checkProgramCode]
  | some s =>
    simp only [checkProgramCode, Option.some.injEq, exists_eq_left']
    split_ifs with h1 h2
    · rw [String.isEmpty_iff] at h1
      simp [h1]
    · constructor
      · rintro ⟨t, ht⟩
        simp at ht
      · intro hc
        omega
    · constructor
      · intro _
        rw [String.isEmpty_iff] at h1
        exact ⟨h1, by omega⟩
      · intro _
        exact ⟨_, rfl⟩

theorem checkChoiceField_ok_val (fn : String) (v : Option String) (t : String)
    (h : checkChoiceField fn v = .ok t) : t = "01" ∨ t = "00" := by
  cases v with
  | none => simp [checkChoiceField] at h
  | some s =>
    simp only [checkChoiceField] at h
    split_ifs at h with h1 h2 h3
    all_goals try simp at h
    obtain rfl : trimStr s = t := h
    simpa using h3

theorem checkProgramCode_ok_val (v : Option String) (t : String)
    (h : checkProgramCode v = .ok t) : t ≠ "" ∧ t.length ≤ 64 := by
  cases v with
  | none => simp [checkProgramCode] at h
  | some s =>
    simp only [checkProgramCode] at h
    split_ifs at h with h1 h2
    all_goals try simp at h
    obtain rfl : trimStr s = t := h
    rw [String.isEmpty_iff] at h1
    exact ⟨h1, by omega⟩




theorem validateMetadata_ok_val (b : MetaBody) (out : MetaOut)
    (h : validateMetadata b = .ok out) :
    out.trainer_type = 10 ∧ (out.mandatory = "01" ∨ out.mandatory = "00") ∧
    (out.program_approve = "01" ∨ out.program_approve = "00") ∧
    out.program_code ≠ "" ∧ out.program_code.length ≤ 64 := by
  simp only [validateMetadata] at h
  rcases e1 : checkRequiredInt b.type_of_activity with m1 | n <;> rw [e1] at h
  · simp at h
  rcases e2 : checkChoiceField "mandatory" b.mandatory with m2 | m <;> rw [e2] at h
  · simp at h
  rcases e3 : checkChoiceField "program_approve" b.program_approve with m3 | p <;> rw [e3] at h
  · simp at h
  rcases e4 : checkProgramCode b.program_code with m4 | c <;> rw [e4] at h
  · simp at h
  simp only [Except.ok.injEq] at h
  subst h
  exact ⟨rfl, checkChoiceField_ok_val _ _ _ e2, checkChoiceField_ok_val _ _ _ e3,
    (checkProgramCode_ok_val _ _ e4).1, (checkProgramCode_ok_val _ _ e4).2⟩




theorem validateMetadata_isOk_iff (b : MetaBody) :
    (∃ out, validateMetadata b = .ok out) ↔
      (∃ n, b.type_of_activity = some n) ∧
      (∃ s, b.mandatory = some s ∧ (trimStr s = "01" ∨ trimStr s = "00")) ∧
      (∃ s, b.program_approve = some s ∧ (trimStr s = "01" ∨ trimStr s = "00")) ∧
      (∃ s, b.program_code = some s ∧ trimStr s ≠ "" ∧ (trimStr s).length ≤ 64) := by
  constructor
  · rintro ⟨out, h⟩
    simp only [validateMetadata] at h
    rcases e1 : checkRequiredInt b.type_of_activity with m1 | n <;> rw [e1] at h
    · simp at h
    rcases e2 : checkChoiceField "mandatory" b.mandatory with m2 | m <;> rw [e2] at h
    · simp at h
    rcases e3 : checkChoiceField "program_approve" b.program_approve with m3 | p <;> rw [e3] at h
    · simp at h
    rcases e4 : checkProgramCode b.program_code with m4 | c <;> rw [e4] at h
    · simp at h
    exact ⟨(checkRequiredInt_isOk_iff _).mp ⟨_, e1⟩,
      (checkChoiceField_isOk_iff _ _).mp ⟨_, e2⟩,
      (checkChoiceField_isOk_iff _ _).mp ⟨_, e3⟩,
      (checkProgramCode_isOk_iff _).mp ⟨_, e4⟩⟩
  · rintro ⟨⟨n, h1⟩, hm, hp, hc⟩
    obtain ⟨m, e2⟩ := (checkChoiceField_isOk_iff "mandatory" b.mandatory).mpr hm
    obtain ⟨p, e3⟩ := (checkChoiceField_isOk_iff "program_approve" b.program_approve).mpr hp
    obtain ⟨c, e4⟩ := (checkProgramCode_isOk_iff b.program_code).mpr hc
    exact ⟨⟨10, n, m, p, c⟩, by simp [validateMetadata, checkRequiredInt, h1, e2, e3, e4]⟩

theorem validateMetadata_error_nonempty (b : MetaBody) (errs : List (String × String))
    (h : validateMetadata b = .error errs) : errs ≠ [] := by
  simp only [validateMetadata] at h
  rcases e1 : checkRequiredInt b.type_of_activity with m1 | n <;> rw [e1] at h <;>
    rcases e2 : checkChoiceField "mandatory" b.mandatory with m2 | m <;> rw [e2] at h <;>
      rcases e3 : checkChoiceField "program_approve" b.program_approve with m3 | p <;> rw [e3] at h <;>
        rcases e4 : checkProgramCode b.program_code with m4 | c <;> rw [e4] at h <;>
          simp_all [fieldErrors] <;> (intro he; subst he; simp at h)

/-- **C9**: the `POST /metadata/{course_id}` body is accepted exactly when
`type_of_activity` is present, `mandatory` and `program_approve` each trim
to `"01"` or `"00"`, and `program_code` trims to a non-blank string of at
most 64 characters; on failure the handler answers 400 with a non-empty
field-level error list and leaves the store untouched; on success it
answers 201 with the validated record (read-only `trainer_type = 10`,
choice fields in `{"01","00"}`, `program_code` non-blank and ≤ 64 chars)
and overwrites the stored metadata with exactly that record. -/
theorem c9_metadata_post_spec {α : Type} (store : Store α) (course_id : String)
    (body : MetaBody) (user_id : Int) :
    ((∃ out, validateMetadata body = .ok out) ↔
      (∃ n, body.type_of_activity = some n) ∧
      (∃ s, body.mandatory = some s ∧ (trimStr s = "01" ∨ trimStr s = "00")) ∧
      (∃ s, body.program_approve = some s ∧ (trimStr s = "01" ∨ trimStr s = "00")) ∧
      (∃ s, body.program_code = some s ∧ trimStr s ≠ "" ∧ (trimStr s).length ≤ 64))
    ∧ (∀ errs, validateMetadata body = .error errs →
        metadata_post store course_id body user_id = ⟨400, none, errs, some store⟩ ∧
        errs ≠ [])
    ∧ (∀ out, validateMetadata body = .ok out →
        (out.trainer_type = 10 ∧ (out.mandatory = "01" ∨ out.mandatory = "00") ∧
         (out.program_approve = "01" ∨ out.program_approve = "00") ∧
         out.program_code ≠ "" ∧ out.program_code.length ≤ 64) ∧
        metadata_post store course_id body user_id =
          ⟨201, some out, [],
            update_program_metadata store course_id out.toPDict user_id⟩ ∧
        (∀ cb, store course_id = some cb →
          (update_program_metadata store course_id out.toPDict user_id).bind
            (fun st => get_program_metadata st course_id) = some out.toPDict)) := by
  refine ⟨validateMetadata_isOk_iff body, ?_, ?_⟩
  · intro errs h
    exact ⟨by simp [metadata_post, h], validateMetadata_error_nonempty body errs h⟩
  · intro out h
    exact ⟨validateMetadata_ok_val body out h, by simp [metadata_post, h],
      fun cb hcb => update_then_get_eq store course_id out.toPDict user_id cb hcb⟩

/-- Witness for C9 at a valid body (accepted, 201, stored) and at the
testable-property scenario with `mandatory` set to `"02"` (rejected with a
`mandatory` field error, store untouched). -/
theorem c9_metadata_post_spec_witness :
    (metadata_post demoStore "course-v1:edx+cd101+23213"
        ⟨some 1, some "01", some "00", some "CODE"⟩ 7 =
      ⟨201, some ⟨10, 1, "01", "00", "CODE"⟩, [],
        update_program_metadata demoStore "course-v1:edx+cd101+23213"
          (MetaOut.toPDict ⟨10, 1, "01", "00", "CODE"⟩) 7⟩)
    ∧ ((update_program_metadata demoStore "course-v1:edx+cd101+23213"
          (MetaOut.toPDict ⟨10, 1, "01", "00", "CODE"⟩) 7).bind
        (fun st => get_program_metadata st "course-v1:edx+cd101+23213") =
      some (MetaOut.toPDict ⟨10, 1, "01", "00", "CODE"⟩))
    ∧ (metadata_post demoStore "course-v1:edx+cd101+23213"
        ⟨some 1, some "02", some "00", some "CODE"⟩ 7 =
      ⟨400, none, [("mandatory", "mandatory must be one of: 01, 00")],
        some demoStore⟩) :=
  ⟨((c9_metadata_post_spec demoStore "course-v1:edx+cd101+23213"
      ⟨some 1, some "01", some "00", some "CODE"⟩ 7).2.2
      ⟨10, 1, "01", "00", "CODE"⟩ (by rfl)).2.1,
   ((c9_metadata_post_spec demoStore "course-v1:edx+cd101+23213"
      ⟨some 1, some "01", some "00", some "CODE"⟩ 7).2.2
      ⟨10, 1, "01", "00", "CODE"⟩ (by rfl)).2.2 demoBlock rfl,
   ((c9_metadata_post_spec demoStore "course-v1:edx+cd101+23213"
      ⟨some 1, some "02", some "00", some "CODE"⟩ 7).2.1
      [("mandatory", "mandatory must be one of: 01, 00")] (by rfl)).1⟩

/-! ## Claim C3: the external certificate record builder -/

/-- The demo user table for the certificate builder: user 5 has a 10-digit
username and no `extrainfo` record. -/
def demoUsers : Int → Option PlatformUser :=
  fun i => if i = 5 then some ⟨"1002457896", none⟩ else none

/-- The demo `EXTERNAL_CERTIFICATES_GROUP_CODES` setting. -/
def demoGroupCodes : String → Option String :=
  fun c => if c = "course-v1:test+Cx105+2022_T4" then some "ABC123" else none

/-- The demo certificate event: user 5, grade 0.85, on the mapped
course. -/
def demoCertEvent : CertificateEvent :=
  ⟨5, "Harry Potter", (17 : ℚ) / 20, "course-v1:test+Cx105+2022_T4"⟩

/-- **C3** (divergence witness): at a concrete certificate event the
builder produces `reference_id = "{national_id}~{course_id}"`, the grade
scaled to the 0–100 range, the user object with national id, English and
Arabic names, and it fails with the `KeyError` case when the course has no
group-code mapping — but `expiration_date` is `None`, not
`created_at + 365 days` as the claim (and the repository's own tests
`signals/tests/test_utils.py` and `api_clients/tests/tests_certificates.py`,
which both expect `created_at + timedelta(days=365)`) require. -/
theorem c3_expiration_date_diverges :
    generate_external_certificate_data demoUsers demoGroupCodes
        (fun _ _ => true) (2024, 6, 1) demoCertEvent =
      .ok { reference_id := "1002457896~course-v1:test+Cx105+2022_T4",
            created_at := "2024-06-01",
            expiration_date := none,
            grade := 85,
            is_passing := true,
            group_code := "ABC123",
            user_national_id := "1002457896",
            user_english_name := "Harry Potter",
            user_arabic_name := "" }
    ∧ generate_external_certificate_data demoUsers (fun _ => none)
        (fun _ _ => true) (2024, 6, 1) demoCertEvent =
      .error .missingGroupCode := by
  constructor
  · have hg : (17 : ℚ) / 20 * 100 = 85 := by norm_num
    simp [generate_external_certificate_data, demoUsers, demoGroupCodes, demoCertEvent,
      generate_reference_id, is_valid_national_id, hg]
    rfl
  · rfl

end EoxNelp
